import Mathlib

/-!
Verification development for the Campaign Recommendation Dashboard
(`src/app.py`).  The program is a Streamlit dashboard built around four
SQL aggregate queries and a small recommendation engine.  This file is a
shallow embedding of that code:

* the event table `team_block_stats` is a `List EventRow`;
* the four `fetch_*` functions (app.py lines 7-73) become pure Lean
  functions from a date window (integers standing for calendar days) and
  the event list to tabular results; SQL `SUM`/`AVG` become list sums
  over `ℚ`, `NULLIF`-guarded division becomes `Option ℚ`, `GROUP BY`
  becomes grouping by first occurrence of a key, `ORDER BY ... DESC`
  becomes a stable insertion sort;
* the dataframe cleaning (lines 106-107), the `.round(2)` presentation
  rounding (line 122), and the recommendation block (lines 156-161)
  become functions on `List CategoryAggregate`;
* the module-level control flow (date guard at lines 88-90, empty-data
  guard at lines 97-99) becomes `runApp`, which also counts how many of
  the aggregate queries were issued.

Nullable SQL/pandas values are `Option`; decimal values are exact
rationals (binary floating point is abstracted to `ℚ`).
-/

/-- One row of the `team_block_stats` event table (§6 of the spec):
`eventDate` is a calendar day encoded as an integer, `category` and
`Conceptual_Group` are nullable text, earnings are decimal, impression
and click counts are integers. -/
structure EventRow where
  eventDate : Int
  category : Option String
  conceptualGroup : Option String
  partner : String
  est_earnings : ℚ
  uniq_impr : Nat
  paid_clicks : Nat
deriving DecidableEq, Repr

/-- One result row of the `fetch_category_data` query (app.py lines
10-15): the grouped aggregates per `(category, Conceptual_Group)` pair.
`EPI` and `CTR` are `Option ℚ` because the SQL computes them as
`SUM(...)/NULLIF(SUM(uniq_impr), 0)`, which is `NULL` when the impression
sum is zero. -/
structure CategoryAggregate where
  conceptualGroup : Option String
  category : Option String
  total_earnings : ℚ
  avg_earnings : ℚ
  total_impressions : Nat
  EPI : Option ℚ
  CTR : Option ℚ
deriving DecidableEq, Repr

/-- The SQL test `eventDate BETWEEN start AND end` — the window is
inclusive on both ends. -/
def inWindow (start_date end_date : Int) (r : EventRow) : Bool :=
  decide (start_date ≤ r.eventDate) && decide (r.eventDate ≤ end_date)

/-- The row filter shared by all four queries:
`eventDate BETWEEN ... AND est_earnings > 0`. -/
def baseFilter (start_date end_date : Int) (r : EventRow) : Bool :=
  inWindow start_date end_date r && decide (0 < r.est_earnings)

/-- The in-window, positive-earnings rows of the event table. -/
def filteredRows (start_date end_date : Int) (db : List EventRow) : List EventRow :=
  db.filter (baseFilter start_date end_date)

/-- Distinct values of a list in order of first occurrence; used for SQL
`GROUP BY` keys and `SELECT DISTINCT`, and for pandas `unique()`. -/
def firstOccur {α : Type} [DecidableEq α] (l : List α) : List α :=
  l.foldl (fun acc x => if x ∈ acc then acc else acc ++ [x]) []

/-- The `GROUP BY category, Conceptual_Group` key of an event row. -/
def groupKey (r : EventRow) : Option String × Option String :=
  (r.category, r.conceptualGroup)

/-- The filtered event rows falling into one `(category, Conceptual_Group)`
group. -/
def rowsOfKey (start_date end_date : Int) (db : List EventRow)
    (k : Option String × Option String) : List EventRow :=
  (filteredRows start_date end_date db).filter (fun r => decide (groupKey r = k))

/-- SQL `SUM(est_earnings)` over a list of event rows. -/
def sumEarnings (l : List EventRow) : ℚ :=
  (l.map (·.est_earnings)).sum

/-- SQL `SUM(uniq_impr)` over a list of event rows. -/
def sumImpr (l : List EventRow) : Nat :=
  (l.map (·.uniq_impr)).sum

/-- SQL `SUM(paid_clicks)` over a list of event rows. -/
def sumClicks (l : List EventRow) : Nat :=
  (l.map (·.paid_clicks)).sum

/-- The aggregate row the `fetch_category_data` query produces for one
group (app.py lines 10-15): total and mean earnings, total impressions,
and the two `NULLIF`-guarded ratios `EPI` and `CTR`. -/
def mkAggregate (k : Option String × Option String) (l : List EventRow) :
    CategoryAggregate where
  conceptualGroup := k.2
  category := k.1
  total_earnings := sumEarnings l
  avg_earnings := sumEarnings l / (l.length : ℚ)
  total_impressions := sumImpr l
  EPI := if sumImpr l = 0 then none else some (sumEarnings l / (sumImpr l : ℚ))
  CTR := if sumImpr l = 0 then none else some ((sumClicks l : ℚ) / (sumImpr l : ℚ))

/-- The comparison behind `ORDER BY total_earnings DESC` (line 20) and
`sort_values("total_earnings", ascending=False)` (line 156): `a` comes
no later than `b` when `a`'s earnings are at least `b`'s. -/
def earnGE (a b : CategoryAggregate) : Prop :=
  b.total_earnings ≤ a.total_earnings

instance : DecidableRel earnGE :=
  fun a b => inferInstanceAs (Decidable (b.total_earnings ≤ a.total_earnings))

/-- Stable descending sort by `total_earnings`; rows with equal earnings
keep their relative order. -/
def sortDesc (t : List CategoryAggregate) : List CategoryAggregate :=
  t.insertionSort earnGE

/-- Query `fetch_category_data` (app.py lines 7-24): group the in-window
positive-earnings rows by `(category, Conceptual_Group)`, aggregate each
group, and order by `total_earnings` descending. -/
def fetch_category_data (start_date end_date : Int) (db : List EventRow) :
    List CategoryAggregate :=
  let keys := firstOccur ((filteredRows start_date end_date db).map groupKey)
  sortDesc (keys.map (fun k => mkAggregate k (rowsOfKey start_date end_date db k)))

/-- Query `fetch_raw_data` (app.py lines 28-38): `SELECT DISTINCT category,
partner` over the in-window positive-earnings rows. -/
def fetch_raw_data (start_date end_date : Int) (db : List EventRow) :
    List (Option String × String) :=
  firstOccur ((filteredRows start_date end_date db).map (fun r => (r.category, r.partner)))

/-- Query `fetch_partner_category_data` (app.py lines 42-57): per-category
summed earnings for one partner, over in-window positive-earnings rows
with non-null category, keeping only groups with strictly positive sum
(`HAVING SUM(est_earnings) > 0`). -/
def fetch_partner_category_data (start_date end_date : Int) (partner : String)
    (db : List EventRow) : List (String × ℚ) :=
  let rows := (filteredRows start_date end_date db).filter
    (fun r => decide (r.partner = partner) && r.category.isSome)
  let keys := firstOccur (rows.filterMap (·.category))
  (keys.map (fun c => (c, sumEarnings (rows.filter (fun r => decide (r.category = some c)))))).filter
    (fun x => decide (0 < x.2))

/-- Query `fetch_partner_conceptual_groups` (app.py lines 61-73): the distinct
non-null conceptual groups of one partner's in-window positive-earnings
rows, as a list (`dropna().unique().tolist()`). -/
def fetch_partner_conceptual_groups (start_date end_date : Int) (partner : String)
    (db : List EventRow) : List String :=
  firstOccur
    (((filteredRows start_date end_date db).filter
        (fun r => decide (r.partner = partner) && r.conceptualGroup.isSome)).filterMap
      (·.conceptualGroup))

/-- Python's `str.lower()` as used on line 107 (character-wise
lowercasing; the string compared against is the ASCII literal
`"none"`). -/
def lowerCase (s : String) : String :=
  String.mk (s.data.map Char.toLower)

/-- The cleaning step (app.py lines 106-107):
`dropna(subset=["category", "total_earnings"])` followed by
`category_df["category"].str.lower() != "none"`.  `total_earnings` is
non-nullable in the model (a SQL `SUM` over a non-empty group of non-null
values), so the `dropna` only removes null categories. -/
def cleanTable (t : List CategoryAggregate) : List CategoryAggregate :=
  (t.filter (fun r => r.category.isSome)).filter
    (fun r => decide (r.category.map lowerCase ≠ some "none"))

/-- Round-half-to-even at integer precision, the rounding mode of
`numpy`/pandas `round`. -/
def roundHalfEven (x : ℚ) : Int :=
  if x - ⌊x⌋ < 1/2 then ⌊x⌋
  else if 1/2 < x - ⌊x⌋ then ⌊x⌋ + 1
  else if 2 ∣ ⌊x⌋ then ⌊x⌋ else ⌊x⌋ + 1

/-- Rounding to 2 decimal places, as in `category_df.round(2)`
(app.py line 122). -/
def round2 (q : ℚ) : ℚ :=
  (roundHalfEven (q * 100) : ℚ) / 100

/-- Pandas `round(2)` applied to one aggregate row: every numeric column is
rounded; the integer impression count is unchanged by integer rounding,
and the nullable ratios are rounded where present. -/
def roundAgg (a : CategoryAggregate) : CategoryAggregate :=
  { a with
    total_earnings := round2 a.total_earnings
    avg_earnings := round2 a.avg_earnings
    EPI := a.EPI.map round2
    CTR := a.CTR.map round2 }

/-- Pandas `category_df.round(2)` (app.py line 122), applied to a whole
table. -/
def round2Table (t : List CategoryAggregate) : List CategoryAggregate :=
  t.map roundAgg

/-- The list `top_categories` (app.py line 156): the category names of the first
30 rows of the table sorted by `total_earnings` descending. -/
def top_categories (t : List CategoryAggregate) : List (Option String) :=
  ((sortDesc t).take 30).map (·.category)

/-- Python's `cat in partner_categories` membership test as used on line
157: a null (`NaN`) category is never equal to a string, so it is not a
member. -/
def usedMem (c : Option String) (used : List String) : Bool :=
  match c with
  | some s => decide (s ∈ used)
  | none => false

/-- The list `recommended` (app.py line 157): the top category names not already
used by the partner — the gap set. -/
def recommended (t : List CategoryAggregate) (used : List String) :
    List (Option String) :=
  (top_categories t).filter (fun c => !usedMem c used)

/-- The table `recommended_df` before the `Domain` column (app.py line 158):
`category_df[category_df["category"].isin(recommended)]` — all rows of
the table whose category name is in the gap set, in table order. -/
def recommended_rows (t : List CategoryAggregate) (used : List String) :
    List CategoryAggregate :=
  t.filter (fun r => decide (r.category ∈ recommended t used))

/-- The two labels of the domain classifier; the source encodes them as
the strings `"In-Domain"` and `"Out-of-Domain"`. -/
inductive Domain where
  | inDomain
  | outOfDomain
deriving DecidableEq, Repr

/-- The classifier applied per row on lines 159-161:
`"In-Domain" if x in in_domain_groups else "Out-of-Domain"`.  A null
(`NaN`) conceptual group is never a member of a list of strings. -/
def classify (g : Option String) (partnerGroups : List String) : Domain :=
  match g with
  | some s => if s ∈ partnerGroups then .inDomain else .outOfDomain
  | none => .outOfDomain

/-- The table `recommended_df` with its `Domain` column (app.py lines 158-161):
each gap row paired with its classification. -/
def recommended_df (t : List CategoryAggregate) (used : List String)
    (groups : List String) : List (CategoryAggregate × Domain) :=
  (recommended_rows t used).map (fun r => (r, classify r.conceptualGroup groups))

/-- What tab 2 renders (app.py lines 165 and 194-195): the dataframe when
recommendations exist, otherwise the informational "already uses all top
categories" message (`st.info`), not an error. -/
inductive RecView where
  | shownTable (rows : List (CategoryAggregate × Domain))
  | saturatedInfo
deriving DecidableEq, Repr

/-- The branch on `recommended_df.empty` in tab 2. -/
def renderRecommendations (df : List (CategoryAggregate × Domain)) : RecView :=
  if df.isEmpty then .saturatedInfo else .shownTable df

/-- Outcome of one dashboard request cycle. -/
inductive AppOutcome where
  | invalidRange
  | noData
  | ok (recs : List (CategoryAggregate × Domain))
deriving DecidableEq, Repr

/-- The module-level control flow of app.py, paired with the number of
aggregate queries issued: the date guard (lines 88-90) stops with an
error before any query; the empty-data guard (lines 97-99) stops after
the two partner-independent queries; otherwise the two partner-scoped
queries run and the recommendation table is computed from the cleaned,
rounded category table (lines 106-161). -/
def runApp (start_date end_date : Int) (db : List EventRow) (partner : String) :
    AppOutcome × Nat :=
  if start_date > end_date then (.invalidRange, 0)
  else
    let category_df := fetch_category_data start_date end_date db
    let _raw_df := fetch_raw_data start_date end_date db
    if category_df.isEmpty then (.noData, 2)
    else
      let cleaned := round2Table (cleanTable category_df)
      let partner_used := fetch_partner_category_data start_date end_date partner db
      let in_domain_groups := fetch_partner_conceptual_groups start_date end_date partner db
      (.ok (recommended_df cleaned (partner_used.map (·.1)) in_domain_groups), 4)

/-- SQL `SUM(paid_clicks)` of one `(category, Conceptual_Group)` group of the
`fetch_category_data` query — the numerator of that group's `CTR`. -/
def groupClicks (start_date end_date : Int) (db : List EventRow)
    (c g : Option String) : Nat :=
  sumClicks (rowsOfKey start_date end_date db (c, g))

/-! ### Helper lemmas about the embedded operations -/

theorem mem_cleanTable {t : List CategoryAggregate} {r : CategoryAggregate} :
    r ∈ cleanTable t ↔
      r ∈ t ∧ r.category.isSome = true ∧ r.category.map lowerCase ≠ some "none" := by
  simp only [cleanTable, List.mem_filter, decide_eq_true_eq]
  tauto

theorem mem_recommended_rows {t : List CategoryAggregate} {used : List String}
    {r : CategoryAggregate} :
    r ∈ recommended_rows t used ↔
      r ∈ t ∧ r.category ∈ top_categories t ∧ usedMem r.category used = false := by
  simp only [recommended_rows, recommended, List.mem_filter, decide_eq_true_eq,
    Bool.not_eq_true', and_assoc]

theorem mem_recommended_df {t : List CategoryAggregate} {used groups : List String}
    {x : CategoryAggregate × Domain} :
    x ∈ recommended_df t used groups ↔
      ∃ r ∈ recommended_rows t used, x = (r, classify r.conceptualGroup groups) := by
  simp only [recommended_df, List.mem_map]
  constructor
  · rintro ⟨r, hr, rfl⟩
    exact ⟨r, hr, rfl⟩
  · rintro ⟨r, hr, rfl⟩
    exact ⟨r, hr, rfl⟩

theorem classify_nil (g : Option String) : classify g [] = Domain.outOfDomain := by
  cases g with
  | none => rfl
  | some s => simp [classify]

theorem recommended_eq_nil_of_covered {t : List CategoryAggregate} {used : List String}
    (h : ∀ c ∈ top_categories t, usedMem c used = true) :
    recommended t used = [] := by
  refine List.filter_eq_nil_iff.mpr fun c hc => ?_
  rw [h c hc]
  simp

/-! ### Concrete tables used to instantiate the theorems -/

/-- A cleaned-shape aggregate row with the given category, conceptual
group and earnings (mean earnings equal, one impression, ratios null). -/
def mkRow (c g : String) (e : ℚ) : CategoryAggregate :=
  ⟨some g, some c, e, e, 1, none, none⟩

/-- A three-row aggregate table: two valid categories and one category
spelled `"NoNe"` that the cleaning step must drop. -/
def sampleT : List CategoryAggregate :=
  [mkRow "A" "G1" 100, mkRow "B" "G2" 80, mkRow "NoNe" "G3" 50]

/-- A 31-row table on which the category name `"X"` occurs under two
conceptual groups: once with the highest earnings and once, below 30
distinct high-earning categories, with the lowest. -/
def dupT : List CategoryAggregate :=
  [mkRow "X" "G1" 100,
  mkRow "CA" "G" 90,
  mkRow "CB" "G" 89,
  mkRow "CC" "G" 88,
  mkRow "CD" "G" 87,
  mkRow "CE" "G" 86,
  mkRow "CF" "G" 85,
  mkRow "CG" "G" 84,
  mkRow "CH" "G" 83,
  mkRow "CI" "G" 82,
  mkRow "CJ" "G" 81,
  mkRow "CK" "G" 80,
  mkRow "CL" "G" 79,
  mkRow "CM" "G" 78,
  mkRow "CN" "G" 77,
  mkRow "CO" "G" 76,
  mkRow "CP" "G" 75,
  mkRow "CQ" "G" 74,
  mkRow "CR" "G" 73,
  mkRow "CS" "G" 72,
  mkRow "CT" "G" 71,
  mkRow "CU" "G" 70,
  mkRow "CV" "G" 69,
  mkRow "CW" "G" 68,
  mkRow "CX" "G" 67,
  mkRow "CY" "G" 66,
  mkRow "CZ" "G" 65,
  mkRow "DA" "G" 64,
  mkRow "DB" "G" 63,
  mkRow "DC" "G" 62,
  mkRow "X" "G2" 1]

/-! ### The claims -/

/-- C3: for every pair of dates with `start_date > end_date`, the request
is rejected (`InvalidRange`) by the guard at app.py lines 88-90 before
any of the four aggregate queries is issued: the outcome is
`invalidRange` and the query count is `0`. -/
theorem C3_invalid_range_no_queries (start_date end_date : Int)
    (db : List EventRow) (partner : String) (h : start_date > end_date) :
    runApp start_date end_date db partner = (AppOutcome.invalidRange, 0) := by
  simp [runApp, h]

/-- Witness for C3 at the concrete window `[5, 3]`. -/
theorem C3_invalid_range_no_queries_witness :
    (5 : Int) > 3 ∧ runApp 5 3 [] "p" = (AppOutcome.invalidRange, 0) :=
  ⟨by decide, C3_invalid_range_no_queries 5 3 [] "p" (by decide)⟩

/-- C5: the domain classifier of app.py lines 159-161 labels a
conceptual group `InDomain` exactly when it is a (case-sensitive, exact)
member of the partner's group list; a null group never matches; and the
classification is deterministic (two calls on the same arguments agree,
immediate because the embedded classifier is a pure function). -/
theorem C5_classify_iff (g : Option String) (S : List String) :
    (classify g S = Domain.inDomain ↔ ∃ s, g = some s ∧ s ∈ S) ∧
    classify none S = Domain.outOfDomain ∧
    classify g S = classify g S := by
  refine ⟨?_, rfl, rfl⟩
  cases g with
  | none => simp [classify]
  | some s =>
    by_cases hs : s ∈ S <;> simp [classify, hs]

/-- Witness for C5 at a concrete group and group set. -/
theorem C5_classify_iff_witness :
    (classify (some "G1") ["G1"] = Domain.inDomain ↔
      ∃ s, (some "G1" : Option String) = some s ∧ s ∈ ["G1"]) ∧
    classify none ["G1"] = Domain.outOfDomain ∧
    classify (some "G1") ["G1"] = classify (some "G1") ["G1"] :=
  C5_classify_iff (some "G1") ["G1"]

/-- C4: after the cleaning step of app.py lines 106-107 no surviving row
has a null category or a category that lowercases to `"none"`, and the
invariant carries to both downstream tables: the rounded overall table
of line 122 and the recommendation table of lines 156-161. -/
theorem C4_clean_invariant (t : List CategoryAggregate)
    (used groups : List String) :
    (∀ r ∈ cleanTable t,
      r.category ≠ none ∧ r.category.map lowerCase ≠ some "none") ∧
    (∀ r ∈ round2Table (cleanTable t),
      r.category ≠ none ∧ r.category.map lowerCase ≠ some "none") ∧
    (∀ x ∈ recommended_df (round2Table (cleanTable t)) used groups,
      x.1.category ≠ none ∧ x.1.category.map lowerCase ≠ some "none") := by
  have hclean : ∀ r ∈ cleanTable t,
      r.category ≠ none ∧ r.category.map lowerCase ≠ some "none" := by
    intro r hr
    obtain ⟨-, hsome, hlow⟩ := mem_cleanTable.mp hr
    exact ⟨Option.isSome_iff_ne_none.mp hsome, hlow⟩
  have hround : ∀ r ∈ round2Table (cleanTable t),
      r.category ≠ none ∧ r.category.map lowerCase ≠ some "none" := by
    intro r hr
    obtain ⟨a, ha, rfl⟩ := List.mem_map.mp hr
    exact hclean a ha
  refine ⟨hclean, hround, ?_⟩
  intro x hx
  obtain ⟨r, hr, rfl⟩ := mem_recommended_df.mp hx
  exact hround r (mem_recommended_rows.mp hr).1

/-- Witness for C4: the surviving row of the sample table. -/
theorem C4_clean_invariant_witness :
    (mkRow "A" "G1" 100).category ≠ none ∧
    (mkRow "A" "G1" 100).category.map lowerCase ≠ some "none" :=
  (C4_clean_invariant sampleT [] []).1 (mkRow "A" "G1" 100) (by decide)

/-- C7: when the partner's used-category set covers every top-30
category name, the gap list of line 157 is empty, so `recommended_df`
filters away every row, and tab 2 renders the informational
"already uses all top categories" message (app.py lines 194-195), not an
error. -/
theorem C7_saturated_partner_empty (t : List CategoryAggregate)
    (used groups : List String)
    (h : ∀ c ∈ top_categories t, usedMem c used = true) :
    recommended_rows t used = [] ∧
    renderRecommendations (recommended_df t used groups) = RecView.saturatedInfo := by
  have hnil : recommended t used = [] := recommended_eq_nil_of_covered h
  have hrows : recommended_rows t used = [] := by
    refine List.filter_eq_nil_iff.mpr fun r _ => ?_
    simp [hnil]
  refine ⟨hrows, ?_⟩
  rw [renderRecommendations, recommended_df, hrows]
  rfl

/-- Witness for C7: a one-row table whose single top category is already
used. -/
theorem C7_saturated_partner_empty_witness :
    (∀ c ∈ top_categories [mkRow "A" "G1" 100], usedMem c ["A"] = true) ∧
    (recommended_rows [mkRow "A" "G1" 100] ["A"] = [] ∧
      renderRecommendations (recommended_df [mkRow "A" "G1" 100] ["A"] ["G1"]) =
        RecView.saturatedInfo) :=
  ⟨by decide, C7_saturated_partner_empty [mkRow "A" "G1" 100] ["A"] ["G1"] (by decide)⟩

/-- C10: the recommendation step only adds the `Domain` label — every
entry of `recommended_df` consists of a row of the input table,
fields untouched, paired with its classification; stripping the label
gives back exactly the filtered rows of line 158. -/
theorem C10_frame_only_domain (t : List CategoryAggregate)
    (used groups : List String) :
    (∀ x ∈ recommended_df t used groups,
      x.1 ∈ t ∧ x.2 = classify x.1.conceptualGroup groups) ∧
    (recommended_df t used groups).map Prod.fst = recommended_rows t used := by
  constructor
  · intro x hx
    obtain ⟨r, hr, rfl⟩ := mem_recommended_df.mp hx
    exact ⟨(mem_recommended_rows.mp hr).1, rfl⟩
  · rw [recommended_df, List.map_map]
    exact List.map_id _

/-- Witness for C10: a concrete entry of a concrete recommendation
table. -/
theorem C10_frame_only_domain_witness :
    (mkRow "B" "G2" 80, Domain.inDomain).1 ∈ sampleT ∧
    (mkRow "B" "G2" 80, Domain.inDomain).2 =
      classify (mkRow "B" "G2" 80, Domain.inDomain).1.conceptualGroup ["G2"] :=
  (C10_frame_only_domain sampleT ["A"] ["G2"]).1 (mkRow "B" "G2" 80, Domain.inDomain)
    (by decide)

/-- C6: for every partner whose conceptual-group list over the window is
empty — `fetch_partner_conceptual_groups` (app.py lines 61-73) returns no
rows, whatever the reason (no qualifying rows, or qualifying rows whose
`Conceptual_Group` is null) — the computation is total (no crash), and
every recommendation entry built against that empty list is classified
`Out-of-Domain`. -/
theorem C6_empty_groups_out_of_domain (start_date end_date : Int)
    (partner : String) (db : List EventRow) (t : List CategoryAggregate)
    (used : List String)
    (h : fetch_partner_conceptual_groups start_date end_date partner db = []) :
    ∀ x ∈ recommended_df t used
        (fetch_partner_conceptual_groups start_date end_date partner db),
      x.2 = Domain.outOfDomain := by
  intro x hx
  obtain ⟨r, -, rfl⟩ := mem_recommended_df.mp hx
  rw [h]
  exact classify_nil _

/-- Witness for C6: a database whose only row belongs to the selected
partner, is in-window with positive earnings, but has a null
`Conceptual_Group`, so the fetched group list is empty; the sample table
is downstream. -/
theorem C6_empty_groups_out_of_domain_witness :
    fetch_partner_conceptual_groups 0 0 "p"
        ([⟨0, some "A", none, "p", 5, 1, 1⟩] : List EventRow) = [] ∧
    ∀ x ∈ recommended_df sampleT []
        (fetch_partner_conceptual_groups 0 0 "p"
          ([⟨0, some "A", none, "p", 5, 1, 1⟩] : List EventRow)),
      x.2 = Domain.outOfDomain :=
  ⟨by decide,
    C6_empty_groups_out_of_domain 0 0 "p" _ sampleT [] (by decide)⟩

/-- C1 (amended): for every input table and used-category set, every row
of the recommendation output comes from the cleaned table, carries a
category name that occurs among the top-30 rows ranked by
`total_earnings` descending, and never carries a used category.  (The
original claim — that the output rows form a subset of the top-30 rows
themselves — fails, because line 158 of app.py filters the whole table
by category *name*; see the counterexample.) -/
theorem C1_output_subset_topN_amended (t : List CategoryAggregate)
    (used : List String) :
    ∀ x ∈ recommended_rows (cleanTable t) used,
      x ∈ cleanTable t ∧
      x.category ∈ top_categories (cleanTable t) ∧
      usedMem x.category used = false := by
  intro x hx
  exact mem_recommended_rows.mp hx

/-- Witness for C1 (amended): a concrete output row of the 31-row
table. -/
theorem C1_output_subset_topN_amended_witness :
    mkRow "CA" "G" 90 ∈ cleanTable dupT ∧
    (mkRow "CA" "G" 90).category ∈ top_categories (cleanTable dupT) ∧
    usedMem (mkRow "CA" "G" 90).category [] = false :=
  C1_output_subset_topN_amended dupT [] (mkRow "CA" "G" 90) (by decide)

/-- C1 (counterexample): on `dupT` the category `"X"` occurs once at the
top of the ranking and once, under another conceptual group, below the
top-30 cut.  The low row is selected by the name-based filter of app.py
line 158 even though it is not one of the top-30 rows, so the output is
not a subset of the top-30 rows of the cleaned table. -/
theorem C1_output_not_subset_top30_rows :
    mkRow "X" "G2" 1 ∈ recommended_rows (cleanTable dupT) [] ∧
    mkRow "X" "G2" 1 ∉ (sortDesc (cleanTable dupT)).take 30 := by
  constructor
  · decide
  · decide

/-! ### Rounding lemmas -/

theorem roundAgg_category (a : CategoryAggregate) :
    (roundAgg a).category = a.category := rfl

theorem le_roundHalfEven (x : ℚ) : ⌊x⌋ ≤ roundHalfEven x := by
  unfold roundHalfEven
  split_ifs <;> omega

theorem roundHalfEven_le_succ (x : ℚ) : roundHalfEven x ≤ ⌊x⌋ + 1 := by
  unfold roundHalfEven
  split_ifs <;> omega

theorem roundHalfEven_mono {a b : ℚ} (hab : a ≤ b) :
    roundHalfEven a ≤ roundHalfEven b := by
  have hf : ⌊a⌋ ≤ ⌊b⌋ := Int.floor_mono hab
  rcases lt_or_eq_of_le hf with hlt | heq
  · have h1 := roundHalfEven_le_succ a
    have h2 := le_roundHalfEven b
    omega
  · unfold roundHalfEven
    rw [← heq]
    split_ifs <;> first | omega | (exfalso; linarith)

theorem round2_mono {a b : ℚ} (hab : a ≤ b) : round2 a ≤ round2 b := by
  unfold round2
  have h100 : a * 100 ≤ b * 100 := by linarith
  have hcast : ((roundHalfEven (a * 100) : ℚ)) ≤ (roundHalfEven (b * 100) : ℚ) := by
    exact_mod_cast roundHalfEven_mono h100
  gcongr

theorem roundAgg_earnGE {a b : CategoryAggregate} (h : earnGE a b) :
    earnGE (roundAgg a) (roundAgg b) :=
  round2_mono h

theorem sorted_round2Table {t : List CategoryAggregate}
    (h : List.Sorted earnGE t) : List.Sorted earnGE (round2Table t) :=
  List.Pairwise.map roundAgg (fun _ _ hab => roundAgg_earnGE hab) h

theorem sortDesc_eq_self {t : List CategoryAggregate}
    (h : List.Sorted earnGE t) : sortDesc t = t :=
  h.insertionSort_eq

/-- C8: on a table in query order (descending `total_earnings`, the
order `fetch_category_data` guarantees), the recommendation output of
line 158 is exactly the ranking restricted to the gap set, and it is
itself in descending-earnings order: the name-based filter keeps table
order, and no further tie-break is applied. -/
theorem C8_order_preserved (t : List CategoryAggregate) (used : List String)
    (h : List.Sorted earnGE t) :
    recommended_rows t used =
      (sortDesc t).filter (fun r => decide (r.category ∈ recommended t used)) ∧
    List.Sorted earnGE (recommended_rows t used) := by
  constructor
  · rw [sortDesc_eq_self h]
    rfl
  · exact List.Pairwise.filter _ h

/-- Witness for C8 on the (descending) sample table. -/
theorem C8_order_preserved_witness :
    List.Sorted earnGE sampleT ∧
    (recommended_rows sampleT ["A"] =
        (sortDesc sampleT).filter
          (fun r => decide (r.category ∈ recommended sampleT ["A"])) ∧
      List.Sorted earnGE (recommended_rows sampleT ["A"])) :=
  ⟨by decide, C8_order_preserved sampleT ["A"] (by decide)⟩

/-- C9: rounding to 2 decimal places (app.py line 122) is
presentation-only.  On a table in query order, the top-30 category
names, the gap set, and the selected rows are the same whether the
ranking runs over raw or rounded earnings — rounding is monotone, so the
stable sort leaves a query-ordered table unchanged either way — and the
recommendations table equals the raw recommendations with exactly the
same rounding applied, i.e. both displayed tables are rounded
identically. -/
theorem C9_rounding_presentation_only (t : List CategoryAggregate)
    (used : List String) (h : List.Sorted earnGE t) :
    top_categories (round2Table t) = top_categories t ∧
    recommended (round2Table t) used = recommended t used ∧
    recommended_rows (round2Table t) used = round2Table (recommended_rows t used) := by
  have htop : top_categories (round2Table t) = top_categories t := by
    rw [top_categories, top_categories, sortDesc_eq_self (sorted_round2Table h),
      sortDesc_eq_self h, round2Table, ← List.map_take, List.map_map]
    simp only [Function.comp_def, roundAgg_category]
  have hrec : recommended (round2Table t) used = recommended t used := by
    rw [recommended, recommended, htop]
  refine ⟨htop, hrec, ?_⟩
  rw [recommended_rows, hrec, round2Table, round2Table, List.filter_map,
    recommended_rows]
  congr 1

/-- Witness for C9 on the (descending) sample table. -/
theorem C9_rounding_presentation_only_witness :
    List.Sorted earnGE sampleT ∧
    (top_categories (round2Table sampleT) = top_categories sampleT ∧
      recommended (round2Table sampleT) ["A"] = recommended sampleT ["A"] ∧
      recommended_rows (round2Table sampleT) ["A"] =
        round2Table (recommended_rows sampleT ["A"])) :=
  ⟨by decide, C9_rounding_presentation_only sampleT ["A"] (by decide)⟩

/-- C2: every row `fetch_category_data` produces has `EPI` and `CTR`
null exactly when its impression total is zero, and equal to
`total_earnings / total_impressions` and
`total_clicks / total_impressions` otherwise; the `NULLIF` guard makes
the division total (an `Option` in the model), so a zero denominator
yields null rather than a fault. -/
theorem C2_epi_ctr_null_safe (start_date end_date : Int) (db : List EventRow)
    (a : CategoryAggregate)
    (ha : a ∈ fetch_category_data start_date end_date db) :
    (a.total_impressions = 0 → a.EPI = none ∧ a.CTR = none) ∧
    (0 < a.total_impressions →
      a.EPI = some (a.total_earnings / (a.total_impressions : ℚ)) ∧
      a.CTR = some
        ((groupClicks start_date end_date db a.category a.conceptualGroup : ℚ) /
          (a.total_impressions : ℚ))) := by
  simp only [fetch_category_data] at ha
  have ha' := (List.perm_insertionSort earnGE _).mem_iff.mp ha
  obtain ⟨k, -, rfl⟩ := List.mem_map.mp ha'
  constructor
  · intro h0
    have h0' : sumImpr (rowsOfKey start_date end_date db k) = 0 := h0
    constructor <;> simp [mkAggregate, h0']
  · intro hpos
    have hne : sumImpr (rowsOfKey start_date end_date db k) ≠ 0 :=
      Nat.pos_iff_ne_zero.mp hpos
    constructor
    · simp [mkAggregate, hne]
    · simp [mkAggregate, hne, groupClicks]

/-- Witness for C2: a one-row database whose only group has zero
impressions; the produced aggregate has null `EPI` and `CTR`. -/
theorem C2_epi_ctr_null_safe_witness :
    (⟨some "G", some "A", 5, 5, 0, none, none⟩ : CategoryAggregate) ∈
      fetch_category_data 0 0 [⟨0, some "A", some "G", "p", 5, 0, 3⟩] ∧
    ((⟨some "G", some "A", 5, 5, 0, none, none⟩ : CategoryAggregate).total_impressions = 0 →
      (⟨some "G", some "A", 5, 5, 0, none, none⟩ : CategoryAggregate).EPI = none ∧
      (⟨some "G", some "A", 5, 5, 0, none, none⟩ : CategoryAggregate).CTR = none) := by
  have hmem : (⟨some "G", some "A", 5, 5, 0, none, none⟩ : CategoryAggregate) ∈
      fetch_category_data 0 0 [⟨0, some "A", some "G", "p", 5, 0, 3⟩] := by
    have heval : fetch_category_data 0 0 [⟨0, some "A", some "G", "p", 5, 0, 3⟩] =
        [⟨some "G", some "A", 5, 5, 0, none, none⟩] := by
      norm_num [fetch_category_data, sortDesc, filteredRows, baseFilter, inWindow,
        firstOccur, groupKey, rowsOfKey, mkAggregate, sumEarnings, sumImpr, sumClicks,
        List.insertionSort, List.orderedInsert, List.sum_cons, List.sum_nil]
    rw [heval]
    exact List.mem_singleton.mpr rfl
  exact ⟨hmem,
    (C2_epi_ctr_null_safe 0 0 [⟨0, some "A", some "G", "p", 5, 0, 3⟩] _ hmem).1⟩
